import Mathlib

/-!
# Shallow embedding of `conflate/conf_.py`

This file embeds the configuration registry of the `confect` repository
(`src/conflate/conf_.py`) into Lean 4 and proves properties of it.

Modelling conventions:

* Python dicts with string keys become association lists (`Dict β`) with
  dict semantics: lookup returns the first (unique) binding, an update of an
  existing key replaces it in place, a new key is appended.
* Python exceptions become an explicit `PyError` value.  A method that can
  raise returns `Except PyError _` when the pre-raise state is irrelevant,
  or a pair `state × Option PyError` when the claim needs the state the
  object is left in after an exception (Python exceptions do not roll back
  mutations already performed).
* `weakref.proxy` back-references from a `ConfGroup` to its owning `Conf`
  are modelled by an object-identity token (`Nat`): each `Conf` carries an
  `id` and a group's `conf` field holds the id of the registry its
  back-reference points at.  The `id` field models Python object identity,
  it is not an attribute of the Python object.
* `@contextmanager` generators in the source have *no* try/finally, so when
  the body of the `with` block raises, the code after the generator's
  `yield` does not run.  The embeddings of `_mutable_conf_ctx`,
  `local_env`, `_conflate_c_ctx`/`load_conf_file` reproduce exactly that:
  on the error path the post-`yield` cleanup is skipped.
* The bodies executed inside scoped windows (the caller's `with` block, the
  exec'd loader source) are arbitrary state transformers
  `σ → σ × Option PyError`.
-/

set_option autoImplicit false

namespace Conflate

/-- A Python value stored in a configuration property.  The registry treats
values as opaque (no validation); integers and strings cover every value in
the repository's doctests, and both are immutable atoms under Python
`deepcopy`. -/
inductive Value where
  | int (n : Int)
  | str (s : String)
deriving DecidableEq, Repr

/-- A Python dict with string keys, as an association list in insertion
order with unique keys kept by construction of the operations below. -/
abbrev Dict (β : Type) := List (String × β)

/-- Dict lookup: `m[k]` / `m.get(k)` — first binding for `k`. -/
def dictGet? {β : Type} : Dict β → String → Option β
  | [], _ => none
  | (k', v) :: rest, k => if k' = k then some v else dictGet? rest k

/-- Dict membership: `k in m`. -/
def dictContains {β : Type} (m : Dict β) (k : String) : Bool :=
  (dictGet? m k).isSome

/-- Dict update `m[k] = v`: replace the binding of an existing key in
place, append a new key at the end. -/
def dictSet {β : Type} : Dict β → String → β → Dict β
  | [], k, v => [(k, v)]
  | (k', v') :: rest, k, v =>
      if k' = k then (k, v) :: rest else (k', v') :: dictSet rest k v

/-- The exceptions that can surface from the embedded code: the four
`conflate.error` classes imported by `conf_.py` (that module is not under
`src/`; only the class names appear in the import), Python's built-in
`TypeError`, and a stand-in `runtimeError` for an arbitrary exception
raised by a caller-supplied body. -/
inductive PyError where
  | confGroupExists
  | frozenConfGroup
  | frozenConfProp
  | unknownConf
  | typeError
  | runtimeError
deriving DecidableEq, Repr

/-- Modelled from the spec: class `ConfDepot` (`conflate/conf_depot.py`) is
not under `src/`.  The spec describes it (the OverlayStore) as "a mapping
from group name to a pending PropertyBag of staged updates": `pending`
maps a group name to a dict of staged property values.  Staging is an
unconditional nested write that never consults any frozen flag. -/
structure ConfDepot where
  pending : Dict (Dict Value)
deriving DecidableEq, Repr

/-- Modelled from the spec: `stage(groupName, key, value)` is an
"unconditional write into `pending[groupName][key]`". -/
def ConfDepot.stage (d : ConfDepot) (groupName key : String) (v : Value) : ConfDepot :=
  let bag := (dictGet? d.pending groupName).getD []
  { pending := dictSet d.pending groupName (dictSet bag key v) }

/-- Modelled from the spec: `contains(groupName)` membership test, used by
`Conf.__getattr__` as `group_name in conf_depot`. -/
def ConfDepot.containsGroup (d : ConfDepot) (groupName : String) : Bool :=
  dictContains d.pending groupName

/-- Modelled from the spec: `conf_depot[group_name]`, the staged bag for a
group (empty when nothing is staged). -/
def ConfDepot.getBag (d : ConfDepot) (groupName : String) : Dict Value :=
  (dictGet? d.pending groupName).getD []

/-- Python `deepcopy` of a `Value`: ints and strings are immutable atoms,
returned unchanged. -/
def Value.deepcopy (v : Value) : Value := v

/-- Python `deepcopy` of a dict of values: a fresh dict, keys unchanged
(strings are atoms), values deep-copied. -/
def dictDeepcopyValues (m : Dict Value) : Dict Value :=
  m.map fun kv => (kv.1, Value.deepcopy kv.2)

/-- Python `deepcopy` of a `ConfDepot`: structural copy of the nested
dicts. -/
def ConfDepot.deepcopy (d : ConfDepot) : ConfDepot :=
  { pending := d.pending.map fun kv => (kv.1, dictDeepcopyValues kv.2) }

/-- Embedding of `class ConfGroup` (`conf_.py` lines 216–270).  Slots `_conf`, `_name`,
`_is_registering`, `_properties`.  The `_conf` slot holds
`weakref.proxy(registry)`, modelled as the registry's identity token. -/
structure ConfGroup where
  conf : Nat
  name : String
  isRegistering : Bool
  properties : Dict Value
deriving DecidableEq, Repr

/-- The names in `ConfGroup.__slots__`. -/
def confGroupSlots : List String :=
  ["_conf", "_name", "_properties", "_is_registering"]

/-- Embedding of `ConfGroup.__init__`: stores the back-reference, the name, registering
mode off, and the default-property dict itself as the bag. -/
def ConfGroup.init (confId : Nat) (name : String) (defaultProperties : Dict Value) :
    ConfGroup :=
  { conf := confId
    name := name
    isRegistering := false
    properties := defaultProperties }

/-- Embedding of `ConfGroup.__getattr__` (lines 225–231): unknown key raises
`UnknownConfError`, otherwise return `self._properties[key]`.  (Called by
Python only for non-slot names, i.e. property reads.) -/
def ConfGroup.getattr (g : ConfGroup) (key : String) : Except PyError Value :=
  match dictGet? g.properties key with
  | none => .error .unknownConf
  | some v => .ok v

/-- Embedding of `ConfGroup.__setattr__` (lines 242–261) for a non-slot `key` (the
`key in self.__slots__` branch performs a raw `object.__setattr__` slot
write, used only internally by `__init__` and `_register_ctx`, and is
modelled by direct record updates at those call sites).  `frozen` is the
owning registry's `_is_frozen`, read through the `_conf` back-reference.
Branch order as in the source: registering mode accepts anything; then the
unknown-key check; then the frozen check; else overwrite. -/
def ConfGroup.setattr (g : ConfGroup) (frozen : Bool) (key : String) (v : Value) :
    Except PyError ConfGroup :=
  if g.isRegistering then
    .ok { g with properties := dictSet g.properties key v }
  else if ¬ dictContains g.properties key then
    .error .unknownConf
  else if frozen then
    .error .frozenConfProp
  else
    .ok { g with properties := dictSet g.properties key v }

/-- Embedding of `ConfGroup.__deepcopy__` (lines 233–240): copies the name, registering
flag and a deep copy of the property bag, and keeps `_conf` as the same
reference (`new_self._conf = self._conf  # Don't need to copy conf`) — the
back-reference still points at the original registry. -/
def ConfGroup.deepcopy (g : ConfGroup) : ConfGroup :=
  { conf := g.conf
    name := g.name
    isRegistering := g.isRegistering
    properties := dictDeepcopyValues g.properties }

/-- Item assignment on a group: `ConfGroup` declares `__slots__` and defines no `__setitem__`, so item
assignment `group[key] = value` raises `TypeError`.  This is what the
drain loop in `Conf.__getattr__` (line 133) attempts. -/
def ConfGroup.setitem (_g : ConfGroup) (_key : String) (_v : Value) :
    Except PyError ConfGroup :=
  .error .typeError

/-- Embedding of `class Conf` (`conf_.py` lines 17–213).  Slots `_is_setting_imported`,
`_is_frozen`, `_conf_depot`, `_conf_groups` (plus `__weakref__`).  The
extra `id` field models Python object identity, the target of
`weakref.proxy(self)`; it is not an attribute. -/
structure Conf where
  id : Nat
  isSettingImported : Bool
  isFrozen : Bool
  confDepot : ConfDepot
  confGroups : Dict ConfGroup
deriving DecidableEq, Repr

/-- The attribute names in `Conf.__slots__`. -/
def confSlots : List String :=
  ["_is_setting_imported", "_is_frozen", "_conf_depot", "_conf_groups", "__weakref__"]

/-- Embedding of `Conf.__init__`: frozen by default, fresh empty depot, no groups. -/
def Conf.init (objId : Nat) : Conf :=
  { id := objId
    isSettingImported := false
    isFrozen := true
    confDepot := { pending := [] }
    confGroups := [] }

/-- The registration handle `group._register_ctx()` returned by
`add_group` for a default-less group: a context manager over the group
(entering it flips `_is_registering` on, leaving flips it off). -/
structure RegisterHandle where
  group : ConfGroup
deriving DecidableEq, Repr

/-- Embedding of `Conf.add_group` (lines 46–73).  The duplicate-name check precedes
everything else; on `ConfGroupExistsError` the registry is untouched.
Otherwise the whole operation runs inside `_mutable_conf_ctx` (whose body
here cannot raise, and a `return` from inside `with` still runs the normal
exit, so `_is_frozen` ends `true`): a `ConfGroup` is built with a
back-reference to this registry, inserted under `name`, and the handle
`group._register_ctx()` is returned exactly when `default_properties` is
empty (`if not default_properties`), else the method returns `None`.
Result: the registry state Python leaves behind, and the raised error or
the returned value. -/
def Conf.add_group (c : Conf) (name : String) (defaultProperties : Dict Value) :
    Conf × Except PyError (Option RegisterHandle) :=
  if dictContains c.confGroups name then
    (c, .error .confGroupExists)
  else
    let group := ConfGroup.init c.id name defaultProperties
    let c' := { c with
                isFrozen := true
                confGroups := dictSet c.confGroups name group }
    (c', .ok (if defaultProperties.isEmpty then some { group := group } else none))

/-- Embedding of `Conf._backup` (lines 75–76): `deepcopy(self._conf_groups)` — a fresh
dict whose values are `ConfGroup.__deepcopy__` copies. -/
def Conf.backup (c : Conf) : Dict ConfGroup :=
  c.confGroups.map fun kv => (kv.1, ConfGroup.deepcopy kv.2)

/-- Embedding of `Conf._restore` (lines 78–79): replaces `_conf_groups` wholesale. -/
def Conf.restore (c : Conf) (confGroups : Dict ConfGroup) : Conf :=
  { c with confGroups := confGroups }

/-- Embedding of `Conf._mutable_conf_ctx` (lines 101–105), applied to a body.  The
generator sets `_is_frozen = False`, yields to the body, and sets
`_is_frozen = True` after the yield.  There is no try/finally: if the body
raises, the line after the yield does not run and the registry stays as
the body left it (unfrozen), the exception propagating. -/
def Conf.mutable_conf_ctx (c : Conf) (body : Conf → Conf × Option PyError) :
    Conf × Option PyError :=
  let c1 := { c with isFrozen := false }
  let (c2, err) := body c1
  match err with
  | none => ({ c2 with isFrozen := true }, none)
  | some e => (c2, some e)

/-- Embedding of `Conf.local_env` (lines 81–99), applied to a body.  The generator
takes `conf_groups_backup = self._backup()`, runs the caller's block at
its `yield` inside `with self._mutable_conf_ctx()`, then calls
`self._restore(conf_groups_backup)`.  No try/finally: if the body raises,
the exception propagates out of the inner `with` (which also skips its
refreeze) and `_restore` never runs. -/
def Conf.local_env (c : Conf) (body : Conf → Conf × Option PyError) :
    Conf × Option PyError :=
  let conf_groups_backup := Conf.backup c
  let (c2, err) := Conf.mutable_conf_ctx c body
  match err with
  | none => (Conf.restore c2 conf_groups_backup, none)
  | some e => (c2, some e)

/-- Embedding of `Conf.__deepcopy__` (lines 150–161): a new object (fresh identity
`newId`) copying the flags, deep-copying the depot and the group dict, and
then re-pointing every copied group's `_conf` at the new object
(`group._conf = weakref.proxy(new_self)`). -/
def Conf.deepcopy (c : Conf) (newId : Nat) : Conf :=
  let copiedGroups := c.confGroups.map fun kv => (kv.1, ConfGroup.deepcopy kv.2)
  { id := newId
    isSettingImported := c.isSettingImported
    isFrozen := c.isFrozen
    confDepot := ConfDepot.deepcopy c.confDepot
    confGroups := copiedGroups.map fun kv => (kv.1, { kv.2 with conf := newId }) }

/-- The drain loop of `Conf.__getattr__` (lines 132–133):
`for conf_property, value in conf_depot_group.items(): conf_group[conf_property] = value`.
Each iteration is an item assignment on the group, which raises
`TypeError` (no `__setitem__`). -/
def drainLoop (g : ConfGroup) : Dict Value → Except PyError ConfGroup
  | [] => .ok g
  | (k, v) :: rest => do
      let g' ← ConfGroup.setitem g k v
      drainLoop g' rest

/-- Embedding of `Conf.__getattr__` (lines 120–135), the read path for
`conf.group_name` (and `conf[group_name]` via `__getitem__`).  Line 122
reads `conf_depot = _get_obj_attr('_conf_depot')`: the module helper
`_get_obj_attr(obj, attr)` takes two arguments and is called with one, so
Python raises `TypeError` at that line, before the unknown-group check.
The remaining lines are unreachable in the source and are modelled as
written (the drain would itself raise `TypeError` on its first item, see
`ConfGroup.setitem`). -/
def Conf.getattr (c : Conf) (groupName : String) : Except PyError ConfGroup := do
  let conf_groups := c.confGroups
  let conf_depot : ConfDepot ← .error .typeError
  match dictGet? conf_groups groupName with
  | none => .error .unknownConf
  | some conf_group =>
      if ConfDepot.containsGroup conf_depot groupName then
        drainLoop conf_group (ConfDepot.getBag conf_depot groupName)
      else
        .ok conf_group

/-- Embedding of `Conf.__setattr__` (lines 137–145): a name in `__slots__` goes to
`object.__setattr__` (a raw slot write, used internally by `__init__` and
the window toggles, modelled by direct record updates at those sites; no
error); every other name raises `FrozenConfGroupError` unconditionally —
the branch never consults `_is_frozen`.  This returns the error raised,
if any. -/
def Conf.setattrErr (_c : Conf) (name : String) (_v : Value) : Option PyError :=
  if name ∈ confSlots then none else some .frozenConfGroup

/-- A loader-surface write `c.group.key = value` performed by external
loader code through the published `conflate.c` binding: the binding is the
registry's own `ConfDepot` object, so the write stages into
`self._conf_depot` (modelled from the spec, as `ConfDepot` is). -/
def Conf.stageOverlay (c : Conf) (groupName key : String) (v : Value) : Conf :=
  { c with confDepot := ConfDepot.stage c.confDepot groupName key v }

/-- Embedding of `Conf.load_conf_file` / `Conf.load_conf_module` (lines 163–205):
`with self._mutable_conf_ctx(): with self._conflate_c_ctx(): exec(...)`.
`_conflate_c_ctx` (lines 107–112) publishes `conflate.c = self._conf_depot`
before its yield and runs `del conflate.c` after it.  The exec'd loader
source is abstracted as a transformer of the published depot that may
raise.  Result: the registry state, whether `conflate.c` is still
published, and the propagated error.  Neither context manager has
try/finally: when the body raises, both the `del conflate.c` and the
refreeze after the inner and outer yields are skipped. -/
def Conf.load_conf_file (c : Conf) (body : ConfDepot → ConfDepot × Option PyError) :
    Conf × Bool × Option PyError :=
  let c1 := { c with isFrozen := false }
  let (depotAfter, err) := body c1.confDepot
  let c2 := { c1 with confDepot := depotAfter }
  match err with
  | none => ({ c2 with isFrozen := true }, false, none)
  | some e => (c2, true, some e)

/-! ## Dict and deepcopy lemmas -/

theorem dictGet?_dictSet_self {β : Type} (m : Dict β) (k : String) (v : β) :
    dictGet? (dictSet m k v) k = some v := by
  induction m with
  | nil => simp [dictSet, dictGet?]
  | cons kv rest ih =>
      by_cases h : kv.1 = k
      · simp [dictSet, h, dictGet?]
      · simp [dictSet, h, dictGet?, ih]

theorem dictGet?_dictSet_ne {β : Type} (m : Dict β) (k k' : String) (v : β)
    (h : k' ≠ k) : dictGet? (dictSet m k v) k' = dictGet? m k' := by
  induction m with
  | nil => simp [dictSet, dictGet?, Ne.symm h]
  | cons kv rest ih =>
      by_cases hk : kv.1 = k
      · subst hk
        simp [dictSet, dictGet?, Ne.symm h]
      · by_cases hk' : kv.1 = k'
        · simp [dictSet, hk, dictGet?, hk', h]
        · simp [dictSet, hk, dictGet?, hk', h, ih]

theorem dictGet?_mapValues {β γ : Type} (f : β → γ) (m : Dict β) (k : String) :
    dictGet? (m.map fun kv => (kv.1, f kv.2)) k = (dictGet? m k).map f := by
  induction m with
  | nil => simp [dictGet?]
  | cons kv rest ih =>
      by_cases h : kv.1 = k
      · simp [dictGet?, h]
      · simp [dictGet?, h, ih]

theorem value_deepcopy_atom (v : Value) : Value.deepcopy v = v := rfl

theorem dictDeepcopyValues_eq (m : Dict Value) : dictDeepcopyValues m = m := by
  induction m with
  | nil => rfl
  | cons kv rest ih =>
      show (kv.1, Value.deepcopy kv.2) :: dictDeepcopyValues rest = kv :: rest
      rw [ih]
      rfl

/-- A deep copy of a group is structurally equal to the original (all its
fields are immutable data in the embedding); in particular the `conf`
back-reference is carried over unchanged. -/
theorem confGroup_deepcopy_eq_self (g : ConfGroup) : ConfGroup.deepcopy g = g := by
  cases g with
  | mk conf name isRegistering properties =>
      simp [ConfGroup.deepcopy, dictDeepcopyValues_eq]

theorem mapDeepcopyGroups_eq (m : Dict ConfGroup) :
    (m.map fun kv => (kv.1, ConfGroup.deepcopy kv.2)) = m := by
  induction m with
  | nil => rfl
  | cons kv rest ih => simp [confGroup_deepcopy_eq_self, ih]

/-- Lemma: `Conf.backup` returns a dict structurally equal to the live group
mapping. -/
theorem Conf.backup_eq (c : Conf) : Conf.backup c = c.confGroups :=
  mapDeepcopyGroups_eq c.confGroups

/-! ## Concrete states used by witnesses and counterexamples -/

/-- A registry with one group `dummy` holding `opt1 = 3` (the scenario of
the `Conf` class doctest). -/
def confDummy : Conf :=
  { id := 0
    isSettingImported := false
    isFrozen := true
    confDepot := { pending := [] }
    confGroups := [("dummy", ConfGroup.init 0 "dummy" [("opt1", Value.int 3)])] }

/-- A registry where group `net` was registered (with no `port` property)
and `(net, port, 8080)` was then staged through the loader-facing overlay
surface. -/
def confNetStaged : Conf :=
  Conf.stageOverlay (Conf.add_group (Conf.init 0) "net" []).1 "net" "port" (Value.int 8080)

/-! ## Claim theorems -/

/-- C6 (code_bug evidence).  The claim says accessing a never-registered
group name fails with `UnknownConfError`.  In the source, line 122 of
`Conf.__getattr__` calls the two-argument helper `_get_obj_attr` with a
single argument, so Python raises `TypeError` there — before the
membership check on line 123 ever runs; the class's own doctests
(`conf.dummy.opt1` returning `3`) fail on the same line.  Evaluated on an
empty registry, the access raises `TypeError`, not `UnknownConfError`. -/
theorem getattr_unknown_group_raises_typeError :
    Conf.getattr (Conf.init 0) "nosuch" = .error .typeError ∧
    PyError.typeError ≠ PyError.unknownConf :=
  ⟨rfl, by decide⟩

/-- C2 (code_bug evidence).  The claim says a value staged for
`(net, port)` through the overlay store is returned (and returned again)
when `net.port` is read through the registry.  The read `conf.net` goes
through `Conf.__getattr__`, which raises `TypeError` at line 122
(`_get_obj_attr` called with one argument) before the drain can run; and
even the drain itself (line 133) performs item assignment
`conf_group[key] = value` on a `ConfGroup`, which defines no
`__setitem__` and therefore also raises `TypeError`.  Evaluated on a
registry with `(net, port, 8080)` staged, the read raises `TypeError`
instead of returning `8080`. -/
theorem staged_overlay_read_raises_typeError :
    Conf.getattr confNetStaged "net" = .error .typeError ∧
    ConfGroup.setitem (ConfGroup.init 0 "net" []) "port" (Value.int 8080) =
      .error .typeError := by
  constructor
  · rfl
  · rfl

/-- C9 (confirmed).  Assigning any non-slot attribute directly on the
registry object raises `FrozenConfGroupError` unconditionally:
`Conf.__setattr__` only consults `__slots__` membership, never
`_is_frozen`, so the result is the same while a mutable window is open
(the theorem quantifies over every registry state, frozen or not). -/
theorem conf_setattr_nonslot_always_frozenConfGroup (c : Conf) (name : String)
    (v : Value) (h : name ∉ confSlots) :
    Conf.setattrErr c name v = some .frozenConfGroup := by
  simp [Conf.setattrErr, h]

/-- Witness for C9, on a registry whose mutable window is open
(`isFrozen = false`). -/
theorem conf_setattr_nonslot_always_frozenConfGroup_witness :
    "newgroup" ∉ confSlots ∧
    Conf.setattrErr { Conf.init 0 with isFrozen := false } "newgroup" (Value.int 1) =
      some .frozenConfGroup :=
  ⟨by decide,
   conf_setattr_nonslot_always_frozenConfGroup _ "newgroup" (Value.int 1) (by decide)⟩

/-- C10 (confirmed).  When `add_group` raises `ConfGroupExistsError` for a
duplicate name, the registry is left exactly as it was: the duplicate
check on line 65 precedes the mutable window and every mutation, so the
returned state is the input state (same group mapping, overlay store and
frozen flag). -/
theorem add_group_duplicate_leaves_registry_unchanged (c : Conf) (name : String)
    (d : Dict Value) (h : dictContains c.confGroups name = true) :
    (Conf.add_group c name d).1 = c ∧
    (Conf.add_group c name d).2 = .error .confGroupExists := by
  constructor <;> simp [Conf.add_group, h]

/-- Witness for C10: re-registering `dummy` on `confDummy` fails and
leaves the registry untouched. -/
theorem add_group_duplicate_leaves_registry_unchanged_witness :
    dictContains confDummy.confGroups "dummy" = true ∧
    (Conf.add_group confDummy "dummy" [("x", Value.int 1)]).1 = confDummy ∧
    (Conf.add_group confDummy "dummy" [("x", Value.int 1)]).2 =
      .error .confGroupExists :=
  ⟨by decide,
   add_group_duplicate_leaves_registry_unchanged confDummy "dummy"
     [("x", Value.int 1)] (by decide)⟩

/-- C7 (confirmed).  A mutable window sets `_is_frozen` to `false` on
entry and back to `true` on exit, so after a window that closes (its body
completed normally) the frozen flag is `true`; provided the window was not
nested — i.e. the registry was frozen when it opened — this equals the
state immediately before the window opened. -/
theorem mutable_ctx_refreezes_on_normal_exit (c : Conf)
    (body : Conf → Conf × Option PyError)
    (hok : (body { c with isFrozen := false }).2 = none)
    (hpre : c.isFrozen = true) :
    (Conf.mutable_conf_ctx c body).1.isFrozen = true ∧
    (Conf.mutable_conf_ctx c body).1.isFrozen = c.isFrozen := by
  rcases hb : body { c with isFrozen := false } with ⟨c2, err⟩
  rw [hb] at hok
  cases err with
  | none => constructor <;> simp [Conf.mutable_conf_ctx, hb, hpre]
  | some e => exact absurd hok (by simp)

/-- Witness for C7: a window over `confDummy` whose body completes
normally ends with the registry frozen again, as it was before. -/
theorem mutable_ctx_refreezes_on_normal_exit_witness :
    (Conf.mutable_conf_ctx confDummy fun c => (c, none)).1.isFrozen = true ∧
    (Conf.mutable_conf_ctx confDummy fun c => (c, none)).1.isFrozen =
      confDummy.isFrozen :=
  mutable_ctx_refreezes_on_normal_exit confDummy (fun c => (c, none)) rfl rfl

/-- A block body for `local_env`: performs the write
`conf.dummy.opt1 = 5` through the group write-gate (under the registry's
live frozen flag, as the `_conf` back-reference does) and then raises
`RuntimeError`. -/
def bodySetOpt1ThenRaise (c : Conf) : Conf × Option PyError :=
  match dictGet? c.confGroups "dummy" with
  | none => (c, some .unknownConf)
  | some g =>
      match ConfGroup.setattr g c.isFrozen "opt1" (Value.int 5) with
      | .error e => (c, some e)
      | .ok g' => ({ c with confGroups := dictSet c.confGroups "dummy" g' },
                   some .runtimeError)

/-- The same block body, completing normally instead of raising. -/
def bodySetOpt1Normal (c : Conf) : Conf × Option PyError :=
  match dictGet? c.confGroups "dummy" with
  | none => (c, some .unknownConf)
  | some g =>
      match ConfGroup.setattr g c.isFrozen "opt1" (Value.int 5) with
      | .error e => (c, some e)
      | .ok g' => ({ c with confGroups := dictSet c.confGroups "dummy" g' }, none)

/-- C1 counterexample.  The claim says `local_env` restores the
pre-snapshot group mapping whether the body completes normally or raises.
On `confDummy` with a body that sets `dummy.opt1 = 5` and then raises:
the failure propagates, but the group mapping is *not* restored
(`opt1` is still `5`) and the registry is even left unfrozen — the
`@contextmanager` generators of `local_env` and `_mutable_conf_ctx` have
no try/finally, so nothing after their `yield` runs on the raise path. -/
theorem local_env_raise_skips_restore_cex :
    (Conf.local_env confDummy bodySetOpt1ThenRaise).2 = some .runtimeError ∧
    (Conf.local_env confDummy bodySetOpt1ThenRaise).1.confGroups ≠
      confDummy.confGroups ∧
    ((dictGet? (Conf.local_env confDummy bodySetOpt1ThenRaise).1.confGroups
        "dummy").map fun g => dictGet? g.properties "opt1") =
      some (some (Value.int 5)) ∧
    (Conf.local_env confDummy bodySetOpt1ThenRaise).1.isFrozen = false := by
  decide

/-- C1 amended.  `local_env` snapshots the group mapping and runs the body
in a mutable window; when the body completes normally, the window is
refrozen and the pre-snapshot mapping restored (every write inside the
block discarded); when the body raises, neither the refreeze nor the
restoration runs — the failure propagates with the registry exactly as
the body left it (writes retained, window still unfrozen). -/
theorem local_env_exit_paths (c : Conf) (body : Conf → Conf × Option PyError)
    (c2 : Conf) (err : Option PyError)
    (hb : body { c with isFrozen := false } = (c2, err)) :
    Conf.local_env c body =
      match err with
      | none => ({ c2 with isFrozen := true, confGroups := c.confGroups }, none)
      | some e => (c2, some e) := by
  cases err with
  | none =>
      simp [Conf.local_env, Conf.mutable_conf_ctx, Conf.restore, hb, Conf.backup_eq]
  | some e =>
      simp [Conf.local_env, Conf.mutable_conf_ctx, hb]

/-- Witness for C1 amended: on `confDummy`, a body that writes
`dummy.opt1 = 5` and completes normally ends with the original registry
back in force (the write discarded, the window refrozen). -/
theorem local_env_exit_paths_witness :
    Conf.local_env confDummy bodySetOpt1Normal = (confDummy, none) :=
  (local_env_exit_paths confDummy bodySetOpt1Normal
      (bodySetOpt1Normal { confDummy with isFrozen := false }).1
      none (by decide)).trans (by decide)

/-- A loader body: stages `(net, port, 8080)` through the published
`conflate.c` binding, then raises. -/
def loaderStageThenRaise (d : ConfDepot) : ConfDepot × Option PyError :=
  (ConfDepot.stage d "net" "port" (Value.int 8080), some .runtimeError)

/-- C5 counterexample.  The claim says that when the loader body raises,
the global overlay binding is already unpublished and the registry frozen
again before the failure propagates.  On a fresh registry with a body
that stages `(net, port, 8080)` and raises: the failure propagates while
`conflate.c` is *still published* and the registry *still unfrozen* —
`_conflate_c_ctx` and `_mutable_conf_ctx` have no try/finally, so
`del conflate.c` and the refreeze are skipped on the raise path.  (The
partial overlay write does remain staged, as the claim says.) -/
theorem load_conf_file_raise_skips_cleanup_cex :
    (Conf.load_conf_file (Conf.init 0) loaderStageThenRaise).2.1 = true ∧
    (Conf.load_conf_file (Conf.init 0) loaderStageThenRaise).1.isFrozen = false ∧
    (Conf.load_conf_file (Conf.init 0) loaderStageThenRaise).2.2 =
      some .runtimeError ∧
    (Conf.load_conf_file (Conf.init 0) loaderStageThenRaise).1.confDepot =
      ConfDepot.stage (Conf.init 0).confDepot "net" "port" (Value.int 8080) := by
  decide

/-- C5 amended.  `load_conf_file` publishes the overlay store and opens a
mutable window; when the loader body completes normally, the binding is
unpublished and the window refrozen; when the body raises, the binding
remains published and the registry remains unfrozen while the failure
propagates.  In both cases every overlay write staged before the exit
remains staged (source load is not transactional). -/
theorem load_conf_file_exit_paths (c : Conf)
    (body : ConfDepot → ConfDepot × Option PyError)
    (d2 : ConfDepot) (err : Option PyError) (hb : body c.confDepot = (d2, err)) :
    Conf.load_conf_file c body =
      match err with
      | none => ({ c with isFrozen := true, confDepot := d2 }, false, none)
      | some e => ({ c with isFrozen := false, confDepot := d2 }, true, some e) := by
  cases err with
  | none => simp [Conf.load_conf_file, hb]
  | some e => simp [Conf.load_conf_file, hb]

/-- Witness for C5 amended: the staging-then-raising loader on a fresh
registry leaves the binding published, the registry unfrozen, and the
staged write in place, with the failure propagated. -/
theorem load_conf_file_exit_paths_witness :
    Conf.load_conf_file (Conf.init 0) loaderStageThenRaise =
      ({ Conf.init 0 with
          isFrozen := false
          confDepot := ConfDepot.stage (Conf.init 0).confDepot "net" "port"
            (Value.int 8080) },
        true, some .runtimeError) :=
  (load_conf_file_exit_paths (Conf.init 0) loaderStageThenRaise
      (ConfDepot.stage (Conf.init 0).confDepot "net" "port" (Value.int 8080))
      (some .runtimeError) rfl).trans rfl

/-- C3 (confirmed).  For a group registered through `add_group` with
non-empty defaults `d`, outside any mutable window (the registry ends the
registration frozen): reading a declared key returns its default value;
writing a declared key while frozen fails with `FrozenConfPropError`; and
writing an undeclared key fails with `UnknownConfError` under *any*
frozen state (the unknown-key check precedes the frozen check, and the
group is not in registering mode). -/
theorem registered_group_read_write_gate (c : Conf) (nm : String) (d : Dict Value)
    (_hne : d ≠ []) (hnew : dictContains c.confGroups nm = false)
    (ka : String) (va : Value) (hka : dictGet? d ka = some va)
    (kw : String) (vw : Value) (hkw : dictContains d kw = true)
    (ku : String) (vu : Value) (frozen : Bool) (hku : dictContains d ku = false) :
    dictGet? (Conf.add_group c nm d).1.confGroups nm =
      some (ConfGroup.init c.id nm d) ∧
    (Conf.add_group c nm d).1.isFrozen = true ∧
    ConfGroup.getattr (ConfGroup.init c.id nm d) ka = .ok va ∧
    ConfGroup.setattr (ConfGroup.init c.id nm d) true kw vw =
      .error .frozenConfProp ∧
    ConfGroup.setattr (ConfGroup.init c.id nm d) frozen ku vu =
      .error .unknownConf := by
  refine ⟨?_, ?_, ?_, ?_, ?_⟩
  · simp [Conf.add_group, hnew, dictGet?_dictSet_self]
  · simp [Conf.add_group, hnew]
  · simp [ConfGroup.getattr, ConfGroup.init, hka]
  · simp [ConfGroup.setattr, ConfGroup.init, hkw]
  · simp [ConfGroup.setattr, ConfGroup.init, hku]

/-- Witness for C3, on the spec's own example `{a: 1, b: "x"}` registered
as group `db` on a fresh registry: `a` reads back `1`; writing `a` while
frozen raises `FrozenConfPropError`; writing the undeclared `c` raises
`UnknownConfError` even with the frozen flag down. -/
theorem registered_group_read_write_gate_witness :
    ([("a", Value.int 1), ("b", Value.str "x")] ≠ ([] : Dict Value)) ∧
    dictContains (Conf.init 0).confGroups "db" = false ∧
    dictGet? ([("a", Value.int 1), ("b", Value.str "x")] : Dict Value) "a" =
      some (Value.int 1) ∧
    dictContains ([("a", Value.int 1), ("b", Value.str "x")] : Dict Value) "a" = true ∧
    dictContains ([("a", Value.int 1), ("b", Value.str "x")] : Dict Value) "c" = false ∧
    (dictGet? (Conf.add_group (Conf.init 0) "db"
        [("a", Value.int 1), ("b", Value.str "x")]).1.confGroups "db" =
      some (ConfGroup.init 0 "db" [("a", Value.int 1), ("b", Value.str "x")]) ∧
    (Conf.add_group (Conf.init 0) "db"
        [("a", Value.int 1), ("b", Value.str "x")]).1.isFrozen = true ∧
    ConfGroup.getattr (ConfGroup.init 0 "db"
        [("a", Value.int 1), ("b", Value.str "x")]) "a" = .ok (Value.int 1) ∧
    ConfGroup.setattr (ConfGroup.init 0 "db"
        [("a", Value.int 1), ("b", Value.str "x")]) true "a" (Value.int 2) =
      .error .frozenConfProp ∧
    ConfGroup.setattr (ConfGroup.init 0 "db"
        [("a", Value.int 1), ("b", Value.str "x")]) false "c" (Value.int 3) =
      .error .unknownConf) :=
  ⟨by decide, by decide, by decide, by decide, by decide,
   registered_group_read_write_gate (Conf.init 0) "db"
     [("a", Value.int 1), ("b", Value.str "x")] (by decide) (by decide)
     "a" (Value.int 1) (by decide) "a" (Value.int 2) (by decide)
     "c" (Value.int 3) false (by decide)⟩

/-- C4 (confirmed).  For a fresh name, `add_group` creates a group whose
back-reference is this registry and whose bag is the given defaults,
inserts it under the name, and returns the registration handle exactly
when the defaults mapping is empty (`None` otherwise); registering the
same name again afterwards fails with `ConfGroupExistsError`. -/
theorem add_group_spec (c : Conf) (nm : String) (d d' : Dict Value)
    (hnew : dictContains c.confGroups nm = false) :
    dictGet? (Conf.add_group c nm d).1.confGroups nm =
      some (ConfGroup.init c.id nm d) ∧
    (ConfGroup.init c.id nm d).conf = c.id ∧
    (ConfGroup.init c.id nm d).properties = d ∧
    (Conf.add_group c nm d).2 =
      .ok (if d.isEmpty then some { group := ConfGroup.init c.id nm d } else none) ∧
    Conf.add_group (Conf.add_group c nm d).1 nm d' =
      ((Conf.add_group c nm d).1, .error .confGroupExists) := by
  have hcontains :
      dictContains (dictSet c.confGroups nm (ConfGroup.init c.id nm d)) nm = true := by
    simp [dictContains, dictGet?_dictSet_self]
  refine ⟨?_, rfl, rfl, ?_, ?_⟩
  · simp [Conf.add_group, hnew, dictGet?_dictSet_self]
  · simp [Conf.add_group, hnew]
  · simp [Conf.add_group, hnew, hcontains]

/-- Witness for C4, replaying the doctest scenarios: a default-less group
`yummy` yields a handle; `dummy` with `num_prop = 3` yields no handle but
is inserted with its defaults; re-registering `dummy` fails with
`ConfGroupExistsError`. -/
theorem add_group_spec_witness :
    dictContains (Conf.init 0).confGroups "yummy" = false ∧
    (Conf.add_group (Conf.init 0) "yummy" []).2 =
      .ok (some { group := ConfGroup.init 0 "yummy" [] }) ∧
    (Conf.add_group (Conf.init 0) "dummy" [("num_prop", Value.int 3)]).2 =
      .ok none ∧
    dictGet? (Conf.add_group (Conf.init 0) "dummy"
        [("num_prop", Value.int 3)]).1.confGroups "dummy" =
      some (ConfGroup.init 0 "dummy" [("num_prop", Value.int 3)]) ∧
    Conf.add_group (Conf.add_group (Conf.init 0) "dummy"
        [("num_prop", Value.int 3)]).1 "dummy" [] =
      ((Conf.add_group (Conf.init 0) "dummy" [("num_prop", Value.int 3)]).1,
        .error .confGroupExists) := by
  have h1 := add_group_spec (Conf.init 0) "yummy" [] [] (by decide)
  have h2 := add_group_spec (Conf.init 0) "dummy" [("num_prop", Value.int 3)] []
    (by decide)
  exact ⟨by decide, h1.2.2.2.1.trans rfl, h2.2.2.2.1.trans rfl, h2.1, h2.2.2.2.2⟩

/-- Every group looked up in a `Conf.__deepcopy__` copy carries the new
object's identity in its back-reference (the rewiring loop on lines
158–159). -/
theorem dictGet?_deepcopy_conf (m : Dict ConfGroup) (newId : Nat) (nm : String)
    (g' : ConfGroup)
    (h : dictGet? ((m.map fun kv => (kv.1, ConfGroup.deepcopy kv.2)).map
          fun kv => (kv.1, { kv.2 with conf := newId })) nm = some g') :
    g'.conf = newId := by
  induction m with
  | nil => simp [dictGet?] at h
  | cons kv rest ih =>
      simp only [List.map_cons, dictGet?] at h
      by_cases hk : kv.1 = nm
      · rw [if_pos hk] at h
        injection h with h2
        subst h2
        rfl
      · rw [if_neg hk] at h
        exact ih h

/-- C8 counterexample.  The claim says the snapshot taken for the
local-override window re-establishes each copied group's back-reference
to the new snapshot context rather than the original registry.  In the
snapshot `Conf._backup` actually takes (a `deepcopy` of the group dict),
the copy of `dummy` still references the *original* registry (id `0` =
`confDummy.id`): `ConfGroup.__deepcopy__` copies `_conf` by reference
(`new_self._conf = self._conf  # Don't need to copy conf`), and the
rewiring loop lives only in `Conf.__deepcopy__`, which `local_env` never
invokes. -/
theorem backup_backref_still_original_cex :
    ((dictGet? (Conf.backup confDummy) "dummy").map fun g => g.conf) =
      some confDummy.id := by
  decide

/-- C8 amended.  `Conf._backup` deep-copies each group (its property bag
is copied element by element and equals the original), but the copied
group's back-reference keeps pointing at the original registry; the
re-pointing of back-references to the new object happens only in
`Conf.__deepcopy__` (copying the whole registry), where every group of
the copy references the copy's identity. -/
theorem backup_deepcopies_bags_keeps_backrefs (c : Conf) (newId : Nat)
    (nm nm' : String) (g g' : ConfGroup)
    (h : dictGet? c.confGroups nm = some g)
    (h' : dictGet? (Conf.deepcopy c newId).confGroups nm' = some g') :
    dictGet? (Conf.backup c) nm = some (ConfGroup.deepcopy g) ∧
    (ConfGroup.deepcopy g).conf = g.conf ∧
    (ConfGroup.deepcopy g).properties = g.properties ∧
    g'.conf = newId := by
  refine ⟨?_, rfl, dictDeepcopyValues_eq g.properties, ?_⟩
  · show dictGet? (c.confGroups.map fun kv => (kv.1, ConfGroup.deepcopy kv.2)) nm = _
    rw [dictGet?_mapValues, h]
    rfl
  · exact dictGet?_deepcopy_conf c.confGroups newId nm' g' h'

/-- Witness for C8 amended, on `confDummy` (id `0`) deep-copied to a new
object of id `1`: the backup's copy of `dummy` keeps bag `opt1 = 3` and
back-reference `0`, while the full-registry deepcopy re-points `dummy` to
`1`. -/
theorem backup_deepcopies_bags_keeps_backrefs_witness :
    dictGet? confDummy.confGroups "dummy" =
      some (ConfGroup.init 0 "dummy" [("opt1", Value.int 3)]) ∧
    dictGet? (Conf.deepcopy confDummy 1).confGroups "dummy" =
      some { ConfGroup.init 0 "dummy" [("opt1", Value.int 3)] with conf := 1 } ∧
    (dictGet? (Conf.backup confDummy) "dummy" =
      some (ConfGroup.deepcopy (ConfGroup.init 0 "dummy" [("opt1", Value.int 3)])) ∧
    (ConfGroup.deepcopy (ConfGroup.init 0 "dummy" [("opt1", Value.int 3)])).conf =
      (ConfGroup.init 0 "dummy" [("opt1", Value.int 3)]).conf ∧
    (ConfGroup.deepcopy (ConfGroup.init 0 "dummy" [("opt1", Value.int 3)])).properties =
      (ConfGroup.init 0 "dummy" [("opt1", Value.int 3)]).properties ∧
    ({ ConfGroup.init 0 "dummy" [("opt1", Value.int 3)] with conf := 1 } :
      ConfGroup).conf = 1) :=
  ⟨by decide, by decide,
   backup_deepcopies_bags_keeps_backrefs confDummy 1 "dummy" "dummy"
     (ConfGroup.init 0 "dummy" [("opt1", Value.int 3)])
     { ConfGroup.init 0 "dummy" [("opt1", Value.int 3)] with conf := 1 }
     (by decide) (by decide)⟩

end Conflate
